import Mathlib

/-
Shallow embedding of the voice-chat relay (src/test.py server, src/client.py client).

The server (VoiceChatServer.handle_client, src/test.py lines 111-150) reads JSON
messages from one websocket.  For each decoded message whose "type" is "audio"
and whose "audio_data" is truthy, it stages the base64-decoded audio in
temp_audio/client_<id>.wav, transcribes it, sends a transcription envelope,
generates a reply, sends a response envelope, synthesizes speech into
temp_audio/client_<id>.mp3, and sends either an audio envelope or an error
envelope, then unlinks both temp files.  Exceptions inside the per-message body
are caught by the inner except handlers (lines 143-148): the remaining
statements of the body are skipped and the read loop continues.

External calls (faster-whisper, the Groq HTTP endpoint, the ElevenLabs client,
base64.b64decode of the inbound payload, and each websocket.send) are modelled
by an oracle record RunEnv giving the outcome of each call in one run.
The temp_audio directory is modelled as an association list FS.
-/

namespace VoiceChat

/-- One wire message as the server writes it with json.dumps
(src/test.py lines 127, 130, 136, 138). -/
inductive Envelope where
  | transcription (text : String)
  | response (text : String)
  | audio (audio_data : String)
  | error (message : String)
deriving DecidableEq, Repr

/-- Outcome of the faster-whisper call inside SpeechToText.transcribe
(src/test.py line 38): the list of segment texts, or a raised exception. -/
inductive WhisperOutcome where
  | segments (texts : List String)
  | raises (msg : String)
deriving DecidableEq, Repr

/-- SpeechToText.transcribe (src/test.py lines 35-44): joins the segment texts
with a space; any exception is caught and the empty string is returned. -/
def SpeechToText.transcribe (o : WhisperOutcome) : String :=
  match o with
  | .segments texts => String.intercalate " " texts
  | .raises _ => ""

/-- Outcome of the HTTP POST inside AIModel.generate_response
(src/test.py line 67): the response status and body content, or a raised
exception (network error, malformed reply body). -/
inductive GroqOutcome where
  | completes (status : Nat) (content : String)
  | raises (msg : String)
deriving DecidableEq, Repr

/-- AIModel.generate_response (src/test.py lines 53-77): non-200 status yields
the first fixed fallback text, an exception yields the second; otherwise the
content of the first choice is returned. -/
def AIModel.generate_response (text : String) (o : GroqOutcome) : String :=
  match o with
  | .completes status content =>
      if status ≠ 200 then "Sorry, I couldn\x27t process your request." else content
  | .raises _ => "Network error occurred."

/-- Outcome of the ElevenLabs call inside TextToSpeech.synthesize
(src/test.py lines 87-95): the chunks written to the output file, or a raised
exception (in which case synthesize returns False and writes nothing). -/
inductive TTSOutcome where
  | converts (chunks : List (List Nat))
  | raises (msg : String)
deriving DecidableEq, Repr

/-- A file in the temp_audio directory: TEMP_AUDIO_DIR / "client_<id>.<ext>"
(src/test.py lines 121, 132). -/
structure TempFile where
  clientId : Nat
  ext : String
deriving DecidableEq, Repr

/-- The temp_audio directory: files present and their byte contents. -/
abbrev FS := List (TempFile × List Nat)

/-- Read a file (open in "rb" mode): none when the file does not exist. -/
def fsRead (f : TempFile) : FS → Option (List Nat)
  | [] => none
  | e :: rest => if e.1 = f then some e.2 else fsRead f rest

/-- Remove every entry for a file. -/
def fsErase (f : TempFile) : FS → FS
  | [] => []
  | e :: rest => if e.1 = f then fsErase f rest else e :: fsErase f rest

/-- Write a file (open in "wb" mode truncates and writes). -/
def fsWrite (f : TempFile) (content : List Nat) (fs : FS) : FS :=
  (f, content) :: fsErase f fs

/-- Path.unlink(missing_ok=True): removes the file, no error when absent. -/
def fsUnlink (f : TempFile) (fs : FS) : FS := fsErase f fs

/-- The base64 alphabet used by base64.b64encode. -/
def b64chars : List Char :=
  "ABCDEFGHIJKLMNOPQRSTUVWXYZabcdefghijklmnopqrstuvwxyz0123456789+/".data

/-- The base64 digit for a 6-bit value. -/
def b64char (n : Nat) : Char := b64chars.getD n '?'

/-- Encode bytes in groups of three, padding the final group with = signs. -/
def b64encodeGroups : List Nat → List Char
  | [] => []
  | [a] => [b64char (a / 4 % 64), b64char (a % 4 * 16), '=', '=']
  | [a, b] => [b64char (a / 4 % 64), b64char (a % 4 * 16 + b / 16), b64char (b % 16 * 4), '=']
  | a :: b :: c :: rest =>
      b64char (a / 4 % 64) :: b64char (a % 4 * 16 + b / 16) ::
        b64char (b % 16 * 4 + c / 64) :: b64char (c % 64) :: b64encodeGroups rest

/-- base64.b64encode(bytes).decode() (src/test.py line 135). -/
def b64encode (bs : List Nat) : String := String.mk (b64encodeGroups bs)

/-- The outcomes of one run of the per-message body of handle_client: the
result of each external call made while processing one audio message.
b64 is the result of base64.b64decode(data["audio_data"]) (none: it raised);
send1, send2, send3 say whether the first, second and third websocket.send of
the run succeed (false: the send raises, e.g. the connection closed). -/
structure RunEnv where
  b64 : Option (List Nat)
  whisper : WhisperOutcome
  groq : GroqOutcome
  tts : TTSOutcome
  send1 : Bool
  send2 : Bool
  send3 : Bool
deriving DecidableEq, Repr

/-- What one iteration of the read loop did: the envelopes successfully sent
to this client in order, the temp_audio directory afterwards, the argument
passed to AIModel.generate_response (none: never invoked), the argument passed
to TextToSpeech.synthesize (none: never invoked), the unlink calls executed,
and whether an exception cut the body short (reaching lines 143-148). -/
structure RunResult where
  sent : List Envelope
  fs : FS
  genInput : Option String
  ttsInput : Option String
  unlinked : List TempFile
  aborted : Bool
deriving DecidableEq, Repr

/-- The pipeline body of handle_client for one audio message that passed the
guard (src/test.py lines 121-142), with client_id = id(websocket). -/
def runPipeline (client_id : Nat) (env : RunEnv) (fs : FS) : RunResult :=
  let audio_file : TempFile := ⟨client_id, "wav"⟩
  match env.b64 with
  | none =>
      ⟨[], fs, none, none, [], true⟩
  | some bytes =>
      let fs1 := fsWrite audio_file bytes fs
      let transcription := SpeechToText.transcribe env.whisper
      if env.send1 then
        let response_text := AIModel.generate_response transcription env.groq
        if env.send2 then
          let tts_output : TempFile := ⟨client_id, "mp3"⟩
          match env.tts with
          | .converts chunks =>
              let fs2 := fsWrite tts_output chunks.flatten fs1
              match fsRead tts_output fs2 with
              | some content =>
                  if env.send3 then
                    ⟨[.transcription transcription, .response response_text,
                        .audio (b64encode content)],
                      fsUnlink tts_output (fsUnlink audio_file fs2),
                      some transcription, some response_text,
                      [audio_file, tts_output], false⟩
                  else
                    ⟨[.transcription transcription, .response response_text], fs2,
                      some transcription, some response_text, [], true⟩
              | none =>
                  ⟨[.transcription transcription, .response response_text], fs2,
                    some transcription, some response_text, [], true⟩
          | .raises _ =>
              if env.send3 then
                ⟨[.transcription transcription, .response response_text,
                    .error "TTS synthesis failed."],
                  fsUnlink tts_output (fsUnlink audio_file fs1),
                  some transcription, some response_text,
                  [audio_file, tts_output], false⟩
              else
                ⟨[.transcription transcription, .response response_text], fs1,
                  some transcription, some response_text, [], true⟩
        else
          ⟨[.transcription transcription], fs1, some transcription, none, [], true⟩
      else
        ⟨[], fs1, none, none, [], true⟩

/-- One inbound websocket message as json.loads sees it: malformed (the parse
raises JSONDecodeError), or a decoded object with its "type" and "audio_data"
fields (absent or null field : none). -/
inductive InMessage where
  | malformed
  | obj (type_ : Option String) (audio_data : Option String)
deriving DecidableEq, Repr

/-- Python truthiness of data.get("audio_data"): None and the empty string are
falsy, any other string is truthy. -/
def pyTruthy : Option String → Bool
  | none => false
  | some s => s != ""

/-- Result of a loop iteration that starts no pipeline run: nothing is sent,
nothing changes. -/
def noRun (fs : FS) : RunResult := ⟨[], fs, none, none, [], false⟩

/-- One iteration of the read loop of handle_client (src/test.py lines
117-148): malformed JSON is caught and logged (line 143); a decoded object
enters the pipeline only when data.get("type") == "audio" and
data.get("audio_data") is truthy (line 120), otherwise nothing happens. -/
def handleMessage (client_id : Nat) (msg : InMessage) (env : RunEnv) (fs : FS) : RunResult :=
  match msg with
  | .malformed => noRun fs
  | .obj type_ audio_data =>
      if (type_ == some "audio") && pyTruthy audio_data then
        runPipeline client_id env fs
      else
        noRun fs

/-- Result of one whole session: the per-message lists of envelopes sent, and
the temp_audio directory at the end. -/
structure SessionResult where
  sent : List (List Envelope)
  fs : FS
deriving DecidableEq, Repr

/-- The read loop of handle_client over the messages delivered before the
transport closed, each paired with the oracle for its external calls. -/
def handleClient (client_id : Nat) : List (InMessage × RunEnv) → FS → SessionResult
  | [], fs => ⟨[], fs⟩
  | (m, env) :: rest, fs =>
      let r := handleMessage client_id m env fs
      let k := handleClient client_id rest r.fs
      ⟨r.sent :: k.sent, k.fs⟩

/-- Which of two concurrent sessions takes the next step. -/
inductive SessionTag where
  | s1
  | s2
deriving DecidableEq, Repr

/-- Outcome of an interleaved execution of two sessions sharing the
temp_audio directory: each session's envelopes plus the final directory. -/
structure InterleavedResult where
  sent1 : List (List Envelope)
  sent2 : List (List Envelope)
  fs : FS
deriving DecidableEq, Repr

/-- Interleaved execution of two handle_client coroutines with client ids id1
and id2 over a shared temp_audio directory: each step is one read-loop
iteration of the tagged session. -/
def runInterleaved (id1 id2 : Nat) :
    List (SessionTag × InMessage × RunEnv) → FS → InterleavedResult
  | [], fs => ⟨[], [], fs⟩
  | (SessionTag.s1, m, env) :: rest, fs =>
      let r := handleMessage id1 m env fs
      let k := runInterleaved id1 id2 rest r.fs
      ⟨r.sent :: k.sent1, k.sent2, k.fs⟩
  | (SessionTag.s2, m, env) :: rest, fs =>
      let r := handleMessage id2 m env fs
      let k := runInterleaved id1 id2 rest r.fs
      ⟨k.sent1, r.sent :: k.sent2, k.fs⟩

/-- The steps of session 2 alone, in order. -/
def projS2 : List (SessionTag × InMessage × RunEnv) → List (InMessage × RunEnv)
  | [] => []
  | (SessionTag.s1, _, _) :: rest => projS2 rest
  | (SessionTag.s2, m, env) :: rest => (m, env) :: projS2 rest

/-- Is an envelope a response envelope. -/
def isResponse : Envelope → Bool
  | .response _ => true
  | _ => false

/-- Scanning left to right, no response envelope occurs before the first
transcription envelope. -/
def respAfterTrans : List Envelope → Bool
  | [] => true
  | Envelope.transcription _ :: _ => true
  | Envelope.response _ :: _ => false
  | _ :: rest => respAfterTrans rest

/-- Scanning left to right, no outbound audio envelope occurs before the
first response envelope. -/
def audioAfterResp : List Envelope → Bool
  | [] => true
  | Envelope.response _ :: _ => true
  | Envelope.audio _ :: _ => false
  | _ :: rest => audioAfterResp rest

/-- The generation stage fails: a non-200 status or a raised exception
(timeout and network errors raise inside the aiohttp block). -/
def genFails : GroqOutcome → Bool
  | .completes status _ => status != 200
  | .raises _ => true

/-- An audio envelope from the client carrying payload ad. -/
def audioMsg (ad : String) : InMessage := .obj (some "audio") (some ad)

/-- A run oracle whose three sends all succeed (open connection). -/
def mkEnv (b : Option (List Nat)) (w : WhisperOutcome) (g : GroqOutcome)
    (t : TTSOutcome) : RunEnv := ⟨b, w, g, t, true, true, true⟩

/-- Dispatch of one received message by VoiceChatClient.receive_messages
(src/client.py lines 93-105). -/
inductive ClientAction where
  | playAudio (b64 : String)
  | logTranscription (t : String)
  | logResponse (t : String)
  | skip
  | raisesKeyError (k : String)
deriving DecidableEq, Repr

/-- One received message at the client: its "type", "audio_data" and "text"
fields (absent or null field : none). -/
structure ClientInMsg where
  type_ : Option String
  audio_data : Option String
  text : Option String
deriving DecidableEq, Repr

/-- The body of the receive loop of VoiceChatClient.receive_messages
(src/client.py lines 95-103): data.get("type") selects the branch; the audio
branch indexes data["audio_data"] and the text branches index data["text"],
raising KeyError when absent; any other type falls through with no action. -/
def VoiceChatClient.receive_step (m : ClientInMsg) : ClientAction :=
  if m.type_ == some "audio" then
    match m.audio_data with
    | some b => .playAudio b
    | none => .raisesKeyError "audio_data"
  else if m.type_ == some "transcription" then
    match m.text with
    | some t => .logTranscription t
    | none => .raisesKeyError "text"
  else if m.type_ == some "response" then
    match m.text with
    | some t => .logResponse t
    | none => .raisesKeyError "text"
  else
    .skip

/-- Concrete oracle: transcription engine raises, generation and synthesis
succeed, all sends succeed. -/
def envWhisperFails : RunEnv :=
  ⟨some [0], .raises "model error", .completes 200 "hi", .converts [[1]], true, true, true⟩

/-- Concrete oracle: everything succeeds but the first send fails, as when the
client closes the connection while the run is in flight. -/
def envClosedMidRun : RunEnv :=
  ⟨some [5], .segments ["hi"], .completes 200 "ok", .converts [[1]], false, true, true⟩

/-- A concrete interleaving of two sessions: session 1 starts a run that is
cut short by a dying connection, session 2 runs a full pipeline, session 1
then delivers malformed JSON. -/
def steps0 : List (SessionTag × InMessage × RunEnv) :=
  [(.s1, audioMsg "QQ==", envClosedMidRun),
   (.s2, audioMsg "QQ==", envWhisperFails),
   (.s1, .malformed, envWhisperFails)]

/-- Reading after an erase: the erased file is gone, others are unchanged. -/
theorem fsRead_fsErase (f g : TempFile) (fs : FS) :
    fsRead f (fsErase g fs) = if f = g then none else fsRead f fs := by
  induction fs with
  | nil => simp [fsErase, fsRead]
  | cons e rest ih =>
      simp only [fsErase]
      by_cases h1 : e.1 = g
      · rw [if_pos h1, ih]
        by_cases h2 : f = g
        · simp [h2]
        · have h3 : ¬ e.1 = f := fun hh => h2 (hh.symm.trans h1)
          simp [fsRead, h2, h3]
      · rw [if_neg h1]
        by_cases h3 : e.1 = f
        · have h2 : ¬ f = g := fun hh => h1 (h3.trans hh)
          simp [fsRead, h2, h3]
        · simp [fsRead, h3, ih]

/-- Reading after a write: the written file has the new content, others are
unchanged. -/
theorem fsRead_fsWrite (f g : TempFile) (c : List Nat) (fs : FS) :
    fsRead f (fsWrite g c fs) = if f = g then some c else fsRead f fs := by
  by_cases h : f = g
  · subst h; simp [fsWrite, fsRead]
  · have h' : ¬ g = f := fun hh => h hh.symm
    simp [fsWrite, fsRead, h, h', fsRead_fsErase]

/-- An audio message with a truthy payload passes the guard at line 120 and
enters the pipeline body. -/
theorem handleMessage_audio (cid : Nat) (ad : String) (env : RunEnv) (fs : FS)
    (had : ad ≠ "") :
    handleMessage cid (audioMsg ad) env fs = runPipeline cid env fs := by
  simp [handleMessage, audioMsg, pyTruthy, had]

/-- Evaluation of a run whose sends all succeed and whose synthesis call
succeeds: transcription, response and audio envelopes, then cleanup. -/
theorem runPipeline_converts (cid : Nat) (bytes : List Nat) (w : WhisperOutcome)
    (g : GroqOutcome) (chunks : List (List Nat)) (fs : FS) :
    runPipeline cid (mkEnv (some bytes) w g (.converts chunks)) fs =
      ⟨[.transcription (SpeechToText.transcribe w),
        .response (AIModel.generate_response (SpeechToText.transcribe w) g),
        .audio (b64encode chunks.flatten)],
       fsUnlink ⟨cid, "mp3"⟩ (fsUnlink ⟨cid, "wav"⟩
         (fsWrite ⟨cid, "mp3"⟩ chunks.flatten (fsWrite ⟨cid, "wav"⟩ bytes fs))),
       some (SpeechToText.transcribe w),
       some (AIModel.generate_response (SpeechToText.transcribe w) g),
       [⟨cid, "wav"⟩, ⟨cid, "mp3"⟩], false⟩ := by
  simp [runPipeline, mkEnv, fsRead_fsWrite]

/-- Evaluation of a run whose sends all succeed and whose synthesis call
raises: transcription, response and error envelopes, then cleanup. -/
theorem runPipeline_ttsRaises (cid : Nat) (bytes : List Nat) (w : WhisperOutcome)
    (g : GroqOutcome) (msg : String) (fs : FS) :
    runPipeline cid (mkEnv (some bytes) w g (.raises msg)) fs =
      ⟨[.transcription (SpeechToText.transcribe w),
        .response (AIModel.generate_response (SpeechToText.transcribe w) g),
        .error "TTS synthesis failed."],
       fsUnlink ⟨cid, "mp3"⟩ (fsUnlink ⟨cid, "wav"⟩ (fsWrite ⟨cid, "wav"⟩ bytes fs)),
       some (SpeechToText.transcribe w),
       some (AIModel.generate_response (SpeechToText.transcribe w) g),
       [⟨cid, "wav"⟩, ⟨cid, "mp3"⟩], false⟩ := by
  simp [runPipeline, mkEnv]

/-- The envelopes a run sends do not depend on the prior state of the
temp_audio directory: the only file the run reads back is the one its own
synthesis call just wrote. -/
theorem runPipeline_sent_indep (cid : Nat) (env : RunEnv) (fsA fsB : FS) :
    (runPipeline cid env fsA).sent = (runPipeline cid env fsB).sent := by
  obtain ⟨b, w, g, t, s1, s2, s3⟩ := env
  cases b <;> cases s1 <;> cases s2 <;> cases s3 <;> cases t <;>
    simp [runPipeline, fsRead_fsWrite]

/-- Same independence for the whole loop iteration. -/
theorem handleMessage_sent_indep (cid : Nat) (m : InMessage) (env : RunEnv)
    (fsA fsB : FS) :
    (handleMessage cid m env fsA).sent = (handleMessage cid m env fsB).sent := by
  cases m with
  | malformed => rfl
  | obj ty ad =>
      simp only [handleMessage]
      by_cases hg : ((ty == some "audio") && pyTruthy ad) = true
      · simp only [if_pos hg]; exact runPipeline_sent_indep cid _ fsA fsB
      · simp only [if_neg hg]; rfl

/-- A file belonging to a different client id is never touched by a run: the
run only writes and unlinks client_<cid>.wav and client_<cid>.mp3. -/
theorem runPipeline_fs_other (cid : Nat) (env : RunEnv) (fs : FS) (f : TempFile)
    (hf : f.clientId ≠ cid) :
    fsRead f ((runPipeline cid env fs).fs) = fsRead f fs := by
  have hw : f ≠ (⟨cid, "wav"⟩ : TempFile) := fun hh => hf (by rw [hh])
  have hm : f ≠ (⟨cid, "mp3"⟩ : TempFile) := fun hh => hf (by rw [hh])
  obtain ⟨b, w, g, t, s1, s2, s3⟩ := env
  cases b <;> cases s1 <;> cases s2 <;> cases s3 <;> cases t <;>
    simp [runPipeline, fsUnlink, fsRead_fsWrite, fsRead_fsErase, hw, hm]

/-- Same for the whole loop iteration. -/
theorem handleMessage_fs_other (cid : Nat) (m : InMessage) (env : RunEnv)
    (fs : FS) (f : TempFile) (hf : f.clientId ≠ cid) :
    fsRead f ((handleMessage cid m env fs).fs) = fsRead f fs := by
  cases m with
  | malformed => rfl
  | obj ty ad =>
      simp only [handleMessage]
      by_cases hg : ((ty == some "audio") && pyTruthy ad) = true
      · simp only [if_pos hg]; exact runPipeline_fs_other cid _ fs f hf
      · simp only [if_neg hg]; rfl

/-- If two directory states agree on every file of client cid, they still
agree on those files after cid runs one pipeline on each. -/
theorem runPipeline_fs_own (cid : Nat) (env : RunEnv) (fsA fsB : FS)
    (hagree : ∀ f : TempFile, f.clientId = cid → fsRead f fsA = fsRead f fsB)
    (f : TempFile) (hf : f.clientId = cid) :
    fsRead f ((runPipeline cid env fsA).fs) = fsRead f ((runPipeline cid env fsB).fs) := by
  have hAB := hagree f hf
  obtain ⟨b, w, g, t, s1, s2, s3⟩ := env
  cases b <;> cases s1 <;> cases s2 <;> cases s3 <;> cases t <;>
    simp [runPipeline, fsUnlink, fsRead_fsWrite, fsRead_fsErase, hAB]

/-- Same for the whole loop iteration. -/
theorem handleMessage_fs_own (cid : Nat) (m : InMessage) (env : RunEnv)
    (fsA fsB : FS)
    (hagree : ∀ f : TempFile, f.clientId = cid → fsRead f fsA = fsRead f fsB)
    (f : TempFile) (hf : f.clientId = cid) :
    fsRead f ((handleMessage cid m env fsA).fs)
      = fsRead f ((handleMessage cid m env fsB).fs) := by
  cases m with
  | malformed => exact hagree f hf
  | obj ty ad =>
      simp only [handleMessage]
      by_cases hg : ((ty == some "audio") && pyTruthy ad) = true
      · simp only [if_pos hg]; exact runPipeline_fs_own cid _ fsA fsB hagree f hf
      · simp only [if_neg hg]; exact hagree f hf

/-- Noninterference: in any interleaving of two sessions with distinct client
ids, session 2 sends exactly the envelopes it would send running alone, and
its view of its own temp files matches the solo execution. -/
theorem interleaved_isolation (id1 id2 : Nat) (h : id1 ≠ id2)
    (steps : List (SessionTag × InMessage × RunEnv)) :
    ∀ (fsI fsS : FS),
      (∀ f : TempFile, f.clientId = id2 → fsRead f fsI = fsRead f fsS) →
      (runInterleaved id1 id2 steps fsI).sent2
          = (handleClient id2 (projS2 steps) fsS).sent
      ∧ ∀ f : TempFile, f.clientId = id2 →
          fsRead f (runInterleaved id1 id2 steps fsI).fs
            = fsRead f (handleClient id2 (projS2 steps) fsS).fs := by
  induction steps with
  | nil =>
      intro fsI fsS hagree
      exact ⟨rfl, hagree⟩
  | cons step rest ih =>
      obtain ⟨tag, m, env⟩ := step
      intro fsI fsS hagree
      cases tag with
      | s1 =>
          have h1 : ∀ f : TempFile, f.clientId = id2 →
              fsRead f ((handleMessage id1 m env fsI).fs) = fsRead f fsS := by
            intro f hf
            have hne : f.clientId ≠ id1 := fun hh => h (hh ▸ hf ▸ rfl)
            rw [handleMessage_fs_other id1 m env fsI f hne]
            exact hagree f hf
          have := ih ((handleMessage id1 m env fsI).fs) fsS h1
          simpa [runInterleaved, projS2] using this
      | s2 =>
          have hsent := handleMessage_sent_indep id2 m env fsI fsS
          have hfs := handleMessage_fs_own id2 m env fsI fsS hagree
          have := ih ((handleMessage id2 m env fsI).fs)
            ((handleMessage id2 m env fsS).fs) hfs
          refine ⟨?_, ?_⟩
          · simp only [runInterleaved, projS2, handleClient]
            rw [hsent, this.1]
          · intro f hf
            simp only [runInterleaved, projS2, handleClient]
            exact this.2 f hf

/-- Two temp files of the same client with different extensions differ. -/
theorem tempFile_ne_of_ext (c : Nat) (e1 e2 : String) (h : e1 ≠ e2) :
    (⟨c, e1⟩ : TempFile) ≠ ⟨c, e2⟩ :=
  fun hh => h (congrArg TempFile.ext hh)

/-- C1 counterexample: with the transcription engine raising, the server sends
a transcription envelope with empty text and then runs the generation and
synthesis stages to completion; no error envelope is emitted and the run does
not end at the transcription stage, contradicting the claim. -/
theorem transcription_failure_no_error_envelope_cex :
    (handleMessage 7 (audioMsg "QQ==") envWhisperFails []).sent
        = [.transcription "", .response "hi", .audio "AQ=="]
    ∧ (handleMessage 7 (audioMsg "QQ==") envWhisperFails []).genInput = some ""
    ∧ (handleMessage 7 (audioMsg "QQ==") envWhisperFails []).ttsInput = some "hi" := by
  refine ⟨?_, ?_, ?_⟩ <;> rfl

/-- C1 (amended): when the transcription engine call raises,
SpeechToText.transcribe swallows the exception and returns the empty string;
the server emits a transcription envelope with empty text, invokes the
response-generation stage on the empty transcript and then the synthesis
stage, and the only error envelope that can ever appear in the run is the
synthesis-failure one. -/
theorem transcription_failure_swallowed (cid : Nat) (bytes : List Nat)
    (msg : String) (g : GroqOutcome) (t : TTSOutcome) (fs : FS) (ad : String)
    (had : ad ≠ "") :
    (handleMessage cid (audioMsg ad) (mkEnv (some bytes) (.raises msg) g t) fs).sent.head?
        = some (.transcription "")
    ∧ (handleMessage cid (audioMsg ad) (mkEnv (some bytes) (.raises msg) g t) fs).genInput
        = some ""
    ∧ (handleMessage cid (audioMsg ad) (mkEnv (some bytes) (.raises msg) g t) fs).ttsInput
        = some (AIModel.generate_response "" g)
    ∧ ∀ m, Envelope.error m
          ∈ (handleMessage cid (audioMsg ad) (mkEnv (some bytes) (.raises msg) g t) fs).sent
        → m = "TTS synthesis failed." := by
  rw [handleMessage_audio cid ad _ fs had]
  cases t with
  | converts chunks =>
      rw [runPipeline_converts]
      refine ⟨rfl, rfl, rfl, ?_⟩
      intro m hm
      simp [SpeechToText.transcribe] at hm
  | raises m' =>
      rw [runPipeline_ttsRaises]
      refine ⟨rfl, rfl, rfl, ?_⟩
      intro m hm
      simp [SpeechToText.transcribe] at hm
      exact hm

/-- C1 witness: the amended theorem applied at a concrete input. -/
theorem transcription_failure_swallowed_witness :
    ("QQ==" : String) ≠ ""
    ∧ ((handleMessage 7 (audioMsg "QQ==")
          (mkEnv (some [0]) (.raises "model error") (.completes 200 "hi")
            (.converts [[1]])) []).sent.head? = some (.transcription "")
      ∧ (handleMessage 7 (audioMsg "QQ==")
          (mkEnv (some [0]) (.raises "model error") (.completes 200 "hi")
            (.converts [[1]])) []).genInput = some ""
      ∧ (handleMessage 7 (audioMsg "QQ==")
          (mkEnv (some [0]) (.raises "model error") (.completes 200 "hi")
            (.converts [[1]])) []).ttsInput
          = some (AIModel.generate_response "" (.completes 200 "hi"))
      ∧ ∀ m, Envelope.error m
            ∈ (handleMessage 7 (audioMsg "QQ==")
                (mkEnv (some [0]) (.raises "model error") (.completes 200 "hi")
                  (.converts [[1]])) []).sent
          → m = "TTS synthesis failed.") :=
  ⟨by decide,
   transcription_failure_swallowed 7 [0] "model error" (.completes 200 "hi")
     (.converts [[1]]) [] "QQ==" (by decide)⟩

/-- C2 counterexample: a malformed JSON message produces no outbound envelope
at all (the claim says an error envelope is emitted); the session does keep
reading, and a later audio message is processed normally. -/
theorem decode_failure_silent_cex :
    (handleMessage 3 .malformed envWhisperFails []).sent = []
    ∧ (handleClient 3 [(.malformed, envWhisperFails), (audioMsg "QQ==", envWhisperFails)] []).sent
        = [[], [.transcription "", .response "hi", .audio "AQ=="]] := by
  exact ⟨rfl, rfl⟩

/-- C2 (amended): malformed JSON and envelopes missing required fields are
caught, logged and skipped: no envelope of any kind is emitted in reply, the
run state is untouched, and the session continues reading subsequent
messages. -/
theorem decode_failure_logged_and_continue (cid : Nat) (env : RunEnv) (fs : FS)
    (msgs : List (InMessage × RunEnv)) :
    handleMessage cid .malformed env fs = noRun fs
    ∧ handleMessage cid (.obj (some "audio") none) env fs = noRun fs
    ∧ (handleClient cid ((InMessage.malformed, env) :: msgs) fs).sent
        = [] :: (handleClient cid msgs fs).sent := by
  exact ⟨rfl, rfl, rfl⟩

/-- C3 counterexample: a run cancelled by connection close during its first
send (the oracle envClosedMidRun) executes no unlink and leaves the staged
inbound audio file on disk, contradicting release-exactly-once in every
terminal outcome. -/
theorem temp_file_leak_on_abort_cex :
    (handleMessage 9 (audioMsg "BQ==") envClosedMidRun []).unlinked = []
    ∧ fsRead ⟨9, "wav"⟩ (handleMessage 9 (audioMsg "BQ==") envClosedMidRun []).fs = some [5]
    ∧ (handleMessage 9 (audioMsg "BQ==") envClosedMidRun []).aborted = true := by
  refine ⟨?_, ?_, ?_⟩ <;> rfl

/-- C3 (amended): the two temp files are unlinked exactly once and are absent
from the directory whenever the run reaches the cleanup statements, which
happens exactly when no send raises (success or synthesis-failure outcome);
a run aborted by a failing send executes no unlink and leaves the staged
audio file on disk. -/
theorem temp_release_behavior (cid : Nat) (bytes : List Nat) (w : WhisperOutcome)
    (g : GroqOutcome) (t : TTSOutcome) (fs : FS) (ad : String) (had : ad ≠ "") :
    ((handleMessage cid (audioMsg ad) (mkEnv (some bytes) w g t) fs).unlinked
        = [⟨cid, "wav"⟩, ⟨cid, "mp3"⟩]
      ∧ fsRead ⟨cid, "wav"⟩
          (handleMessage cid (audioMsg ad) (mkEnv (some bytes) w g t) fs).fs = none
      ∧ fsRead ⟨cid, "mp3"⟩
          (handleMessage cid (audioMsg ad) (mkEnv (some bytes) w g t) fs).fs = none)
    ∧ ((handleMessage cid (audioMsg ad) ⟨some bytes, w, g, t, false, true, true⟩ fs).unlinked
        = []
      ∧ fsRead ⟨cid, "wav"⟩
          (handleMessage cid (audioMsg ad) ⟨some bytes, w, g, t, false, true, true⟩ fs).fs
          = some bytes) := by
  have h1 := tempFile_ne_of_ext cid "wav" "mp3" (by decide)
  have h2 := tempFile_ne_of_ext cid "mp3" "wav" (by decide)
  constructor
  · rw [handleMessage_audio cid ad _ fs had]
    cases t with
    | converts chunks =>
        rw [runPipeline_converts]
        refine ⟨rfl, ?_, ?_⟩ <;>
          simp [fsUnlink, fsRead_fsErase, fsRead_fsWrite, h1, h2]
    | raises m =>
        rw [runPipeline_ttsRaises]
        refine ⟨rfl, ?_, ?_⟩ <;>
          simp [fsUnlink, fsRead_fsErase, fsRead_fsWrite, h1, h2]
  · rw [handleMessage_audio cid ad _ fs had]
    refine ⟨rfl, ?_⟩
    simp [runPipeline, fsRead_fsWrite]

/-- C3 witness: the amended theorem applied at a concrete input. -/
theorem temp_release_behavior_witness :
    ("QQ==" : String) ≠ ""
    ∧ (((handleMessage 4 (audioMsg "QQ==")
          (mkEnv (some [7]) (.segments ["ok"]) (.completes 200 "ok")
            (.converts [[2]])) []).unlinked = [⟨4, "wav"⟩, ⟨4, "mp3"⟩]
      ∧ fsRead ⟨4, "wav"⟩
          (handleMessage 4 (audioMsg "QQ==")
            (mkEnv (some [7]) (.segments ["ok"]) (.completes 200 "ok")
              (.converts [[2]])) []).fs = none
      ∧ fsRead ⟨4, "mp3"⟩
          (handleMessage 4 (audioMsg "QQ==")
            (mkEnv (some [7]) (.segments ["ok"]) (.completes 200 "ok")
              (.converts [[2]])) []).fs = none)
    ∧ ((handleMessage 4 (audioMsg "QQ==")
          ⟨some [7], .segments ["ok"], .completes 200 "ok", .converts [[2]],
            false, true, true⟩ []).unlinked = []
      ∧ fsRead ⟨4, "wav"⟩
          (handleMessage 4 (audioMsg "QQ==")
            ⟨some [7], .segments ["ok"], .completes 200 "ok", .converts [[2]],
              false, true, true⟩ []).fs = some [7])) :=
  ⟨by decide,
   temp_release_behavior 4 [7] (.segments ["ok"]) (.completes 200 "ok")
     (.converts [[2]]) [] "QQ==" (by decide)⟩

/-- C4: for every audio envelope that passes decoding (valid JSON, truthy
audio_data, payload that base64-decodes) on an open connection (no send
raises), the run emits exactly one of the two terminal shapes: the full
transcription, response, audio sequence, or a sequence ending in a terminal
error envelope after transcription and response; no response precedes the
transcription, no outbound audio precedes the response, and the output is
never empty. -/
theorem audio_request_terminal_outcomes (cid : Nat) (bytes : List Nat)
    (w : WhisperOutcome) (g : GroqOutcome) (t : TTSOutcome) (fs : FS)
    (ad : String) (had : ad ≠ "") :
    (((∃ tx rx a, (handleMessage cid (audioMsg ad) (mkEnv (some bytes) w g t) fs).sent
          = [.transcription tx, .response rx, .audio a])
      ∧ ¬(∃ tx rx, (handleMessage cid (audioMsg ad) (mkEnv (some bytes) w g t) fs).sent
          = [.transcription tx, .response rx, .error "TTS synthesis failed."]))
    ∨ ((∃ tx rx, (handleMessage cid (audioMsg ad) (mkEnv (some bytes) w g t) fs).sent
          = [.transcription tx, .response rx, .error "TTS synthesis failed."])
      ∧ ¬(∃ tx rx a, (handleMessage cid (audioMsg ad) (mkEnv (some bytes) w g t) fs).sent
          = [.transcription tx, .response rx, .audio a])))
    ∧ (handleMessage cid (audioMsg ad) (mkEnv (some bytes) w g t) fs).sent ≠ []
    ∧ respAfterTrans (handleMessage cid (audioMsg ad) (mkEnv (some bytes) w g t) fs).sent
        = true
    ∧ audioAfterResp (handleMessage cid (audioMsg ad) (mkEnv (some bytes) w g t) fs).sent
        = true := by
  rw [handleMessage_audio cid ad _ fs had]
  cases t with
  | converts chunks =>
      rw [runPipeline_converts]
      refine ⟨Or.inl ⟨⟨_, _, _, rfl⟩, ?_⟩, ?_, rfl, rfl⟩
      · rintro ⟨tx, rx, hEq⟩
        simp at hEq
      · simp
  | raises m =>
      rw [runPipeline_ttsRaises]
      refine ⟨Or.inr ⟨⟨_, _, rfl⟩, ?_⟩, ?_, rfl, rfl⟩
      · rintro ⟨tx, rx, a, hEq⟩
        simp at hEq
      · simp

/-- C4 witness: the theorem applied at a concrete input. -/
theorem audio_request_terminal_outcomes_witness :
    ("QQ==" : String) ≠ ""
    ∧ ((((∃ tx rx a, (handleMessage 5 (audioMsg "QQ==")
          (mkEnv (some [1]) (.segments ["hello"]) (.completes 200 "hey")
            (.converts [[3]])) []).sent
          = [.transcription tx, .response rx, .audio a])
      ∧ ¬(∃ tx rx, (handleMessage 5 (audioMsg "QQ==")
          (mkEnv (some [1]) (.segments ["hello"]) (.completes 200 "hey")
            (.converts [[3]])) []).sent
          = [.transcription tx, .response rx, .error "TTS synthesis failed."]))
    ∨ ((∃ tx rx, (handleMessage 5 (audioMsg "QQ==")
          (mkEnv (some [1]) (.segments ["hello"]) (.completes 200 "hey")
            (.converts [[3]])) []).sent
          = [.transcription tx, .response rx, .error "TTS synthesis failed."])
      ∧ ¬(∃ tx rx a, (handleMessage 5 (audioMsg "QQ==")
          (mkEnv (some [1]) (.segments ["hello"]) (.completes 200 "hey")
            (.converts [[3]])) []).sent
          = [.transcription tx, .response rx, .audio a])))
    ∧ (handleMessage 5 (audioMsg "QQ==")
        (mkEnv (some [1]) (.segments ["hello"]) (.completes 200 "hey")
          (.converts [[3]])) []).sent ≠ []
    ∧ respAfterTrans (handleMessage 5 (audioMsg "QQ==")
        (mkEnv (some [1]) (.segments ["hello"]) (.completes 200 "hey")
          (.converts [[3]])) []).sent = true
    ∧ audioAfterResp (handleMessage 5 (audioMsg "QQ==")
        (mkEnv (some [1]) (.segments ["hello"]) (.completes 200 "hey")
          (.converts [[3]])) []).sent = true) :=
  ⟨by decide,
   audio_request_terminal_outcomes 5 [1] (.segments ["hello"]) (.completes 200 "hey")
     (.converts [[3]]) [] "QQ==" (by decide)⟩

/-- C5: when the generation stage fails (non-200 status or raised network
error), the reply text is a fixed fallback independent of the transcript, a
response envelope carrying it is still emitted right after the transcription
envelope, and the run emits exactly one response envelope: never a bare error
envelope in its place. -/
theorem generation_failure_fallback_response (cid : Nat) (bytes : List Nat)
    (w : WhisperOutcome) (g : GroqOutcome) (t : TTSOutcome) (fs : FS)
    (ad : String) (had : ad ≠ "") (hg : genFails g = true) :
    ∃ fb, (fb = "Sorry, I couldn\x27t process your request."
            ∨ fb = "Network error occurred.")
      ∧ (∀ s : String, AIModel.generate_response s g = fb)
      ∧ (handleMessage cid (audioMsg ad) (mkEnv (some bytes) w g t) fs).sent.take 2
          = [.transcription (SpeechToText.transcribe w), .response fb]
      ∧ (handleMessage cid (audioMsg ad) (mkEnv (some bytes) w g t) fs).sent.countP
          isResponse = 1 := by
  have key : ∃ fb, (fb = "Sorry, I couldn\x27t process your request."
        ∨ fb = "Network error occurred.")
      ∧ ∀ s : String, AIModel.generate_response s g = fb := by
    cases g with
    | completes status content =>
        have hs : status ≠ 200 := by simpa [genFails] using hg
        exact ⟨_, Or.inl rfl, fun s => by simp [AIModel.generate_response, hs]⟩
    | raises m => exact ⟨_, Or.inr rfl, fun s => rfl⟩
  obtain ⟨fb, hor, hfb⟩ := key
  refine ⟨fb, hor, hfb, ?_, ?_⟩
  · rw [handleMessage_audio cid ad _ fs had]
    cases t with
    | converts chunks => rw [runPipeline_converts]; simp [hfb]
    | raises m => rw [runPipeline_ttsRaises]; simp [hfb]
  · rw [handleMessage_audio cid ad _ fs had]
    cases t with
    | converts chunks =>
        rw [runPipeline_converts]
        simp [List.countP_cons, isResponse]
    | raises m =>
        rw [runPipeline_ttsRaises]
        simp [List.countP_cons, isResponse]

/-- C5 witness: the theorem applied at a concrete input with a network
error. -/
theorem generation_failure_fallback_response_witness :
    (("QQ==" : String) ≠ "" ∧ genFails (.raises "net down") = true)
    ∧ (∃ fb, (fb = "Sorry, I couldn\x27t process your request."
            ∨ fb = "Network error occurred.")
      ∧ (∀ s : String, AIModel.generate_response s (.raises "net down") = fb)
      ∧ (handleMessage 6 (audioMsg "QQ==")
          (mkEnv (some [2]) (.segments ["hi"]) (.raises "net down")
            (.converts [[4]])) []).sent.take 2
          = [.transcription (SpeechToText.transcribe (.segments ["hi"])),
             .response fb]
      ∧ (handleMessage 6 (audioMsg "QQ==")
          (mkEnv (some [2]) (.segments ["hi"]) (.raises "net down")
            (.converts [[4]])) []).sent.countP isResponse = 1) :=
  ⟨⟨by decide, by decide⟩,
   generation_failure_fallback_response 6 [2] (.segments ["hi"]) (.raises "net down")
     (.converts [[4]]) [] "QQ==" (by decide) (by decide)⟩

/-- C6: when the synthesis stage fails, the run emits exactly the sequence
transcription, response, error with the message naming the synthesis failure;
the response envelope stays in the emitted sequence before the error (nothing
is retracted) and nothing follows the error: the run ends there. -/
theorem synthesis_failure_error_after_response (cid : Nat) (bytes : List Nat)
    (w : WhisperOutcome) (g : GroqOutcome) (msg : String) (fs : FS)
    (ad : String) (had : ad ≠ "") :
    (handleMessage cid (audioMsg ad) (mkEnv (some bytes) w g (.raises msg)) fs).sent
      = [.transcription (SpeechToText.transcribe w),
         .response (AIModel.generate_response (SpeechToText.transcribe w) g),
         .error "TTS synthesis failed."] := by
  rw [handleMessage_audio cid ad _ fs had, runPipeline_ttsRaises]

/-- C6 witness: the theorem applied at a concrete input. -/
theorem synthesis_failure_error_after_response_witness :
    ("QQ==" : String) ≠ ""
    ∧ (handleMessage 8 (audioMsg "QQ==")
        (mkEnv (some [3]) (.segments ["yo"]) (.completes 200 "sup")
          (.raises "tts down")) []).sent
      = [.transcription (SpeechToText.transcribe (.segments ["yo"])),
         .response (AIModel.generate_response
            (SpeechToText.transcribe (.segments ["yo"])) (.completes 200 "sup")),
         .error "TTS synthesis failed."] :=
  ⟨by decide,
   synthesis_failure_error_after_response 8 [3] (.segments ["yo"])
     (.completes 200 "sup") "tts down" [] "QQ==" (by decide)⟩

/-- C7: when transcription succeeds with empty text, a transcription envelope
with the empty string is still emitted first, the Response Engine is invoked
with the empty transcript (genInput), and the run advances to synthesis
(ttsInput): silence is not special-cased. -/
theorem empty_transcription_passthrough (cid : Nat) (bytes : List Nat)
    (ts : List String) (g : GroqOutcome) (t : TTSOutcome) (fs : FS)
    (ad : String) (had : ad ≠ "") (hts : String.intercalate " " ts = "") :
    (handleMessage cid (audioMsg ad) (mkEnv (some bytes) (.segments ts) g t) fs).sent.head?
        = some (.transcription "")
    ∧ (handleMessage cid (audioMsg ad) (mkEnv (some bytes) (.segments ts) g t) fs).genInput
        = some ""
    ∧ (handleMessage cid (audioMsg ad) (mkEnv (some bytes) (.segments ts) g t) fs).ttsInput
        = some (AIModel.generate_response "" g) := by
  rw [handleMessage_audio cid ad _ fs had]
  have htr : SpeechToText.transcribe (.segments ts) = "" := by
    simpa [SpeechToText.transcribe] using hts
  cases t with
  | converts chunks => rw [runPipeline_converts]; simp [htr]
  | raises m => rw [runPipeline_ttsRaises]; simp [htr]

/-- C7 witness: the theorem applied at a concrete input with no segments. -/
theorem empty_transcription_passthrough_witness :
    (("QQ==" : String) ≠ "" ∧ String.intercalate " " ([] : List String) = "")
    ∧ ((handleMessage 2 (audioMsg "QQ==")
          (mkEnv (some [9]) (.segments []) (.completes 200 "quiet")
            (.converts [[6]])) []).sent.head? = some (.transcription "")
      ∧ (handleMessage 2 (audioMsg "QQ==")
          (mkEnv (some [9]) (.segments []) (.completes 200 "quiet")
            (.converts [[6]])) []).genInput = some ""
      ∧ (handleMessage 2 (audioMsg "QQ==")
          (mkEnv (some [9]) (.segments []) (.completes 200 "quiet")
            (.converts [[6]])) []).ttsInput
          = some (AIModel.generate_response "" (.completes 200 "quiet"))) :=
  ⟨⟨by decide, by decide⟩,
   empty_transcription_passthrough 2 [9] [] (.completes 200 "quiet")
     (.converts [[6]]) [] "QQ==" (by decide) (by decide)⟩

/-- C8: sessions with distinct client ids are isolated: in every interleaving
of two handle_client loops over the shared temp_audio directory, whatever
session 1 does (including runs cut short by transport failure and malformed
input), session 2 sends exactly the envelopes of its solo execution and its
own temp files end in the same state as in its solo execution. -/
theorem session_isolation (id1 id2 : Nat)
    (steps : List (SessionTag × InMessage × RunEnv)) (fs : FS) (h : id1 ≠ id2) :
    (runInterleaved id1 id2 steps fs).sent2
        = (handleClient id2 (projS2 steps) fs).sent
    ∧ ∀ f : TempFile, f.clientId = id2 →
        fsRead f (runInterleaved id1 id2 steps fs).fs
          = fsRead f (handleClient id2 (projS2 steps) fs).fs :=
  interleaved_isolation id1 id2 h steps fs fs (fun _ _ => rfl)

/-- C8 witness: the theorem applied to a concrete interleaving in which
session 1 has a run cut short by its dying connection. -/
theorem session_isolation_witness :
    (1 : Nat) ≠ 2
    ∧ ((runInterleaved 1 2 steps0 []).sent2 = (handleClient 2 (projS2 steps0) []).sent
      ∧ ∀ f : TempFile, f.clientId = 2 →
          fsRead f (runInterleaved 1 2 steps0 []).fs
            = fsRead f (handleClient 2 (projS2 steps0) []).fs) :=
  ⟨by decide, session_isolation 1 2 steps0 [] (by decide)⟩

/-- C9: a decoded message of type audio whose audio_data is absent, null or
the empty string fails the truthiness guard at line 120: no pipeline run
starts, no stage is invoked, no envelope of any kind is sent, and the
directory is untouched; the empty string behaves exactly like an absent
field. -/
theorem empty_audio_data_skipped (cid : Nat) (ad : Option String) (env : RunEnv)
    (fs : FS) (h : pyTruthy ad = false) :
    handleMessage cid (.obj (some "audio") ad) env fs = noRun fs
    ∧ pyTruthy none = false ∧ pyTruthy (some "") = false := by
  refine ⟨?_, rfl, rfl⟩
  simp [handleMessage, h]

/-- C9 witness: the theorem applied to a present-but-empty audio_data
field. -/
theorem empty_audio_data_skipped_witness :
    pyTruthy (some "") = false
    ∧ (handleMessage 11 (.obj (some "audio") (some "")) envWhisperFails []
          = noRun []
      ∧ pyTruthy none = false ∧ pyTruthy (some "") = false) :=
  ⟨by decide, empty_audio_data_skipped 11 (some "") envWhisperFails [] (by decide)⟩

/-- C10: VoiceChatClient.receive_messages has branches only for the audio,
transcription and response kinds, so a received error envelope matches no
branch and produces no action and no output at the client, whatever other
fields it carries. -/
theorem client_drops_error_envelopes (ad txt : Option String) :
    VoiceChatClient.receive_step ⟨some "error", ad, txt⟩ = ClientAction.skip := by
  rfl

end VoiceChat
